import Mathlib

/-!
# Verification of the CasparGFX "now playing" lower-third overlay

Shallow embedding of `src/CasparGFX/now_playing.html` (the `<script>` block,
lines 125-262).  The script is a timer-driven animation sequencer: `play`,
`update` and `stop` mutate inline styles of a fixed DOM (the lower-third box,
the logo, and a text container with three text fields) and schedule delayed
actions with `setTimeout`.  Exactly two timer handles are stored in globals
(`autoHideTimeout`, `delayedStartTimeout`); only those two are ever passed to
`clearTimeout`.

The embedding models:
* the mutable visual state as an explicit `Overlay` structure (one field per
  inline style the script writes, plus the three text fields' spans);
* each `setTimeout` callback as a constructor of an `Action` type, carrying
  the data its closure captured;
* the event loop as a queue of pending `Timer`s (unique increasing ids,
  absolute fire times); timers fire in order of fire time, ties broken by
  creation order, exactly as the host event loop does;
* the DOM measurement `textContainer.scrollWidth` as an injected function
  `Measure` (the script only reads it, never writes it).

Text fields hold lists of spans `(Char × Bool)`: the character and whether
its opacity has been set to 1.  `element.innerHTML = ''` discards the spans;
a later `span.style.opacity = 1` from a stale timer then targets a detached
node, which is modelled by the out-of-range no-op of `setVisible` together
with the per-`createTypewriter` generation counter.  (The space → `&nbsp;`
substitution is a rendering detail and keeps the character `' '` here.)
-/

set_option maxRecDepth 40000

namespace NowPlaying

/-- Identifies one of the three text field elements
(`now-playing-text`, `artist-text`, `song-text`). -/
inductive FieldId where
  | nowP
  | artist
  | song
deriving DecidableEq, Repr

/-- State of one text field element: its child spans (character, opacity set
to 1?) and a generation counter bumped by each `createTypewriter` call on the
element, so that character timers created for discarded spans can be told
apart from live ones. -/
structure FieldState where
  spans : List (Char × Bool)
  gen : ℕ
deriving DecidableEq, Repr

/-- The visual state of the overlay: every inline style the script writes.
Initial values come from the stylesheet (lines 16-111). -/
structure Overlay where
  nowF : FieldState
  artistF : FieldState
  songF : FieldState
  /-- Opacity of the text container, `style.opacity` of `.text-container` (0 or 1). -/
  textOpacity : ℕ
  /-- Width of the box, `style.width` of `#lower-third` in px (the stylesheet starts it at 0). -/
  width : ℤ
  /-- Vertical position of the box, `style.bottom` of `#lower-third` in px. -/
  lowerBottom : ℤ
  /-- Vertical position of the logo, `style.bottom` of `#logo` in px. -/
  logoBottom : ℤ
  /-- Transform of the logo, `style.transform` of `#logo` (kept as the literal style string). -/
  logoTransform : String
  /-- Opacity of the logo, `style.opacity` of `#logo`. -/
  logoOpacity : ℕ
  /-- whether the `shimmer-effect` class is currently on the logo. -/
  shimmer : Bool
deriving DecidableEq, Repr

def getF (f : FieldId) (st : Overlay) : FieldState :=
  match f with
  | .nowP => st.nowF
  | .artist => st.artistF
  | .song => st.songF

def setF (f : FieldId) (v : FieldState) (st : Overlay) : Overlay :=
  match f with
  | .nowP => { st with nowF := v }
  | .artist => { st with artistF := v }
  | .song => { st with songF := v }

/-- Models `span.style.opacity = 1` on the span at index `i`; out of range is a
no-op (the span the timer captured is no longer in this list). -/
def setVisible : List (Char × Bool) → ℕ → List (Char × Bool)
  | [], _ => []
  | p :: t, 0 => (p.1, true) :: t
  | p :: t, i + 1 => p :: setVisible t i

/-- The width computation in the per-character timer (lines 156-161):
`newWidth = textWidth + paddingExtra`, raised to `baseWidth = 1000` if
below it, capped at 1600. -/
def clampWidth (textWidth : ℤ) : ℤ :=
  let baseWidth : ℤ := 1000
  let paddingExtra : ℤ := 400
  let newWidth := textWidth + paddingExtra
  let newWidth := if newWidth < baseWidth then baseWidth else newWidth
  if newWidth > 1600 then 1600 else newWidth

/-- The spec's formula for the Size Calculator, written from its words:
`clamp(measuredContentWidth + fixedPadding, minWidth, maxWidth)` with
padding 400, minWidth 1000, maxWidth 1600. -/
def clampSpecWidth (measured : ℤ) : ℤ :=
  max 1000 (min (measured + 400) 1600)

/-- Line 163: the container width is overwritten with the clamped value only
when that value is strictly greater than the current width. -/
def applyWidth (cur textWidth : ℤ) : ℤ :=
  let n := clampWidth textWidth
  if n > cur then n else cur

/-- The speed adjustment of `createTypewriter` (lines 136-139): the base
interval, halved when the string is longer than 100 characters.  Every call
site passes `baseSpeed = 50`, so the host's exact division agrees with `/`
on `ℕ`. -/
def adjustSpeed (baseSpeed len : ℕ) : ℕ :=
  if len > 100 then baseSpeed / 2 else baseSpeed

/-- Models the fallback `data.artist || "Artist Name"` (lines 208-209): `||` takes the
default both when the field is absent (`undefined`) and when it is the empty
string (the only falsy string). -/
def orDefault (v : Option String) (d : String) : String :=
  match v with
  | none => d
  | some t => if t = "" then d else t

/-- The continuation a `createTypewriter` completion callback runs
(the nested closures of lines 207-211), with the data they captured. -/
inductive Next where
  | toArtist (artist song : Option String)
  | toSong (song : Option String)
  | done
deriving DecidableEq, Repr

/-- One pending `setTimeout` callback, with the data its closure captured. -/
inductive Action where
  /-- the `delayedStartTimeout` body (lines 193-227). -/
  | delayedStart (artist song : Option String)
  /-- the inner 500 ms timeout of `play` (lines 199-202). -/
  | expandStep
  /-- the inner 2000 ms timeout of `play` (lines 204-221). -/
  | revealStep (artist song : Option String)
  /-- removal of the shimmer class (lines 217-219). -/
  | shimmerOff
  /-- the `autoHideTimeout` body (lines 223-225), which calls `stop()`. -/
  | autoHide
  /-- a per-character timer of `createTypewriter` (lines 150-168) for span
  `i` of generation `g` of field `f`. -/
  | charReveal (f : FieldId) (g : ℕ) (i : ℕ)
  /-- a `createTypewriter` completion callback (line 171). -/
  | fieldDone (k : Next)
  /-- the 500 ms timeout of `stop` (lines 241-244). -/
  | stopWidth
  /-- the 1200 ms timeout of `stop` (lines 246-248). -/
  | stopLogoHome
  /-- the 3500 ms timeout of `stop` (lines 250-252). -/
  | stopLowerOff
  /-- the 1800 ms timeout of `stop` (lines 254-256). -/
  | stopLogoOff
deriving DecidableEq, Repr

/-- A pending timer: `setTimeout` handle, absolute fire time (ms), callback. -/
structure Timer where
  id : ℕ
  fire : ℕ
  act : Action
deriving DecidableEq, Repr

/-- The whole system: current time, fresh-handle counter, pending timers in
creation order, the two global handle variables, and the visual state. -/
structure Sys where
  now : ℕ
  nextId : ℕ
  timers : List Timer
  autoHideTimeout : Option ℕ
  delayedStartTimeout : Option ℕ
  st : Overlay
deriving DecidableEq, Repr

/-- Models `setTimeout(act, d)`: returns the updated system and the new handle. -/
def setTO (d : ℕ) (a : Action) (sys : Sys) : Sys × ℕ :=
  ({ sys with
      timers := sys.timers ++ [⟨sys.nextId, sys.now + d, a⟩]
      nextId := sys.nextId + 1 }, sys.nextId)

/-- Models `clearTimeout(h)`: removes the pending timer with that handle, if any
(a no-op on an already-fired handle or on `undefined`). -/
def clearTO (h : Option ℕ) (sys : Sys) : Sys :=
  match h with
  | none => sys
  | some i => { sys with timers := sys.timers.filter (fun t => t.id ≠ i) }

/-- The resting state: stylesheet values, no pending timers, globals unset. -/
def init : Sys where
  now := 0
  nextId := 0
  timers := []
  autoHideTimeout := none
  delayedStartTimeout := none
  st := {
    nowF := ⟨[], 0⟩
    artistF := ⟨[], 0⟩
    songF := ⟨[], 0⟩
    textOpacity := 0
    width := 0
    lowerBottom := -200
    logoBottom := -200
    logoTransform := "scale(1) rotate(0deg)"
    logoOpacity := 1
    shimmer := false }

/-- The timers one `createTypewriter` call creates (lines 150-172): one per
character at `i * speed`, and the completion callback at
`length * speed + 500`. -/
def twTimers (t0 id0 : ℕ) (f : FieldId) (g : ℕ) (len speed : ℕ) (k : Next) :
    List Timer :=
  (List.range len).map (fun i => ⟨id0 + i, t0 + i * speed, .charReveal f g i⟩)
    ++ [⟨id0 + len, t0 + len * speed + 500, .fieldDone k⟩]

/-- Embedding of `createTypewriter(element, text, baseSpeed, callback)` (lines 129-173):
clears the element, appends one hidden span per character (bumping the
field's generation), and schedules the reveal timers.  Every call site
passes a callback, so the `if (callback)` guard at line 170 is always
taken. -/
def createTypewriter (f : FieldId) (text : String) (baseSpeed : ℕ) (k : Next)
    (sys : Sys) : Sys :=
  let chars := text.toList
  let g := (getF f sys.st).gen + 1
  let st := setF f ⟨chars.map (fun c => (c, false)), g⟩ sys.st
  let speed := adjustSpeed baseSpeed chars.length
  { sys with
      st := st
      timers := sys.timers ++ twTimers sys.now sys.nextId f g chars.length speed k
      nextId := sys.nextId + chars.length + 1 }

/-- Embedding of `stop()` (lines 230-257): clears the two tracked handles, hides the text
container at once, and schedules the four exit moves.  The handles of the
four new timers are not stored anywhere. -/
def stop (sys : Sys) : Sys :=
  let sys := clearTO sys.autoHideTimeout sys
  let sys := clearTO sys.delayedStartTimeout sys
  let sys := { sys with st := { sys.st with textOpacity := 0 } }
  let (sys, _) := setTO 500 .stopWidth sys
  let (sys, _) := setTO 1200 .stopLogoHome sys
  let (sys, _) := setTO 3500 .stopLowerOff sys
  let (sys, _) := setTO 1800 .stopLogoOff sys
  sys

/-- Embedding of `play(data)` (lines 175-228): clears the two tracked handles, resets the
visual state synchronously (lines 183-191), and schedules the delayed start,
storing its handle in `delayedStartTimeout`. -/
def play (artist song : Option String) (sys : Sys) : Sys :=
  let sys := clearTO sys.autoHideTimeout sys
  let sys := clearTO sys.delayedStartTimeout sys
  let sys := { sys with st := { sys.st with
      nowF := { sys.st.nowF with spans := [] }
      artistF := { sys.st.artistF with spans := [] }
      songF := { sys.st.songF with spans := [] }
      textOpacity := 0
      logoOpacity := 1
      logoTransform := "scale(1)"
      width := 0
      lowerBottom := -200
      logoBottom := -100 } }
  let (sys, h) := setTO 1000 (.delayedStart artist song) sys
  { sys with delayedStartTimeout := some h }

/-- Embedding of `update(data)` (lines 259-261): its whole body is `play(data)`. -/
def update (artist song : Option String) (sys : Sys) : Sys :=
  play artist song sys

/-- Abstraction of the DOM measurement `textContainer.scrollWidth`: any
function of the current overlay state. -/
def Measure : Type := Overlay → ℤ

/-- A degenerate measurement model (everything measures 0), used to run
concrete traces. -/
def mzero : Measure := fun _ => 0

/-- Line 152 of the per-character timer: `span.style.opacity = 1`, guarded by
whether the captured span is still the live generation of its element. -/
def charRevealSt (f : FieldId) (g i : ℕ) (st : Overlay) : Overlay :=
  let fld := getF f st
  if g = fld.gen then setF f { fld with spans := setVisible fld.spans i } st
  else st

/-- Runs the body of one fired timer. -/
def runAct (m : Measure) (a : Action) (sys : Sys) : Sys :=
  match a with
  | .delayedStart artist song =>
      let sys := { sys with st := { sys.st with
          lowerBottom := 40
          logoBottom := -80
          logoTransform := "scale(1)" } }
      let (sys, _) := setTO 500 .expandStep sys
      let (sys, _) := setTO 2000 (.revealStep artist song) sys
      let (sys, h) := setTO 12000 .autoHide sys
      { sys with autoHideTimeout := some h }
  | .expandStep =>
      { sys with st := { sys.st with
          width := 1000
          logoTransform := "scale(1.05) rotate(-360deg)" } }
  | .revealStep artist song =>
      let sys := { sys with st := { sys.st with textOpacity := 1 } }
      let sys := createTypewriter .nowP "Now Playing:" 50 (.toArtist artist song) sys
      let sys := { sys with st := { sys.st with shimmer := true } }
      let (sys, _) := setTO 1300 .shimmerOff sys
      sys
  | .shimmerOff =>
      { sys with st := { sys.st with shimmer := false } }
  | .autoHide => stop sys
  | .charReveal f g i =>
      let st1 := charRevealSt f g i sys.st
      { sys with st := { st1 with width := applyWidth st1.width (m st1) } }
  | .fieldDone k =>
      match k with
      | .toArtist artist song =>
          createTypewriter .artist (orDefault artist "Artist Name") 50
            (.toSong song) sys
      | .toSong song =>
          createTypewriter .song (orDefault song "Song Title") 50 .done sys
      | .done => sys
  | .stopWidth =>
      { sys with st := { sys.st with
          width := 0
          logoTransform := "scale(1) rotate(0deg)" } }
  | .stopLogoHome =>
      { sys with st := { sys.st with logoBottom := -80 } }
  | .stopLowerOff =>
      { sys with st := { sys.st with lowerBottom := -200 } }
  | .stopLogoOff =>
      { sys with st := { sys.st with logoBottom := -350 } }

/-- Removes the next timer to fire: smallest fire time, and among equal fire
times the earliest-created (list is kept in creation order), as the host
event loop does. -/
def popNext : List Timer → Option (Timer × List Timer)
  | [] => none
  | t :: ts =>
      match popNext ts with
      | none => some (t, [])
      | some (b, rest) =>
          if b.fire < t.fire then some (b, t :: rest) else some (t, ts)

/-- Fires timers in order as long as they are due at or before wall time `T`,
then advances the clock to `T` (so that a command arriving at `T` can be run
on the result). -/
def runUntil (m : Measure) : ℕ → ℕ → Sys → Sys
  | 0, _, sys => sys
  | fuel + 1, T, sys =>
      match popNext sys.timers with
      | none => { sys with now := T }
      | some (t, rest) =>
          if t.fire ≤ T then
            runUntil m fuel T (runAct m t.act { sys with now := t.fire, timers := rest })
          else
            { sys with now := T }

/-- Fires pending timers in order until none remain (or fuel runs out). -/
def runAll (m : Measure) : ℕ → Sys → Sys
  | 0, sys => sys
  | fuel + 1, sys =>
      match popNext sys.timers with
      | none => sys
      | some (t, rest) =>
          runAll m fuel (runAct m t.act { sys with now := t.fire, timers := rest })

/-- The three externally invoked entry points. -/
inductive Cmd where
  | playCmd (artist song : Option String)
  | updateCmd (artist song : Option String)
  | stopCmd
deriving DecidableEq, Repr

def execCmd : Cmd → Sys → Sys
  | .playCmd a s, sys => play a s sys
  | .updateCmd a s, sys => update a s sys
  | .stopCmd, sys => stop sys

/-- The successive container widths of one reveal pass, given the start
width and the sequence of content widths measured after each character. -/
def revealWidths (w0 : ℤ) (ms : List ℤ) : List ℤ :=
  ms.scanl applyWidth w0

/-- Trace for re-triggering: `play` at t = 0, then `play` again at t = 1200,
while the first cycle's phase timers are outstanding. -/
def c1Sys : Sys :=
  play none none (runUntil mzero 50 1200 (play none none init))

/-- Trace for stopping mid-entrance: `play` at t = 0, then `stop` at
t = 1100, during the Entering phase (box on stage, width still 0). -/
def c2Sys : Sys :=
  stop (runUntil mzero 50 1100 (play none none init))

/-- The quiescent system after calling `stop` from the resting state. -/
def c3Final : Sys :=
  runAll mzero 10 (stop init)

/-! ## Basic lemmas about the event-loop primitives -/

lemma clearTO_st (h : Option ℕ) (sys : Sys) : (clearTO h sys).st = sys.st := by
  cases h <;> rfl

lemma clearTO_now (h : Option ℕ) (sys : Sys) : (clearTO h sys).now = sys.now := by
  cases h <;> rfl

lemma clearTO_nextId (h : Option ℕ) (sys : Sys) :
    (clearTO h sys).nextId = sys.nextId := by
  cases h <;> rfl

lemma clearTO_auto (h : Option ℕ) (sys : Sys) :
    (clearTO h sys).autoHideTimeout = sys.autoHideTimeout := by
  cases h <;> rfl

lemma clearTO_delayed (h : Option ℕ) (sys : Sys) :
    (clearTO h sys).delayedStartTimeout = sys.delayedStartTimeout := by
  cases h <;> rfl

lemma clearTO_mem {t : Timer} {h : Option ℕ} {sys : Sys}
    (ht : t ∈ (clearTO h sys).timers) : t ∈ sys.timers ∧ h ≠ some t.id := by
  cases h with
  | none => exact ⟨ht, by simp⟩
  | some i =>
      simp only [clearTO, List.mem_filter, decide_eq_true_eq] at ht
      exact ⟨ht.1, by simpa using fun hc => ht.2 hc.symm⟩

lemma applyWidth_ge (w mv : ℤ) : w ≤ applyWidth w mv := by
  simp only [applyWidth]
  split_ifs <;> omega

lemma charRevealSt_width (f : FieldId) (g i : ℕ) (st : Overlay) :
    (charRevealSt f g i st).width = st.width := by
  simp only [charRevealSt]
  split_ifs <;> cases f <;> rfl

lemma head?_scanl (f : ℤ → ℤ → ℤ) (b : ℤ) (l : List ℤ) :
    (List.scanl f b l).head? = some b := by
  cases l <;> simp

lemma popNext_eq_none {ts : List Timer} (h : popNext ts = none) : ts = [] := by
  cases ts with
  | nil => rfl
  | cons t ts =>
      exfalso
      simp only [popNext] at h
      rcases hp : popNext ts with _ | ⟨b, rest⟩ <;> rw [hp] at h <;> simp at h
      by_cases hb : b.fire < t.fire <;> simp [hb] at h

lemma runAll_nil (m : Measure) (fuel : ℕ) {sys : Sys} (h : sys.timers = []) :
    runAll m fuel sys = sys := by
  cases fuel with
  | zero => rfl
  | succ fuel => simp [runAll, h, popNext]

lemma runAll_add (m : Measure) (a b : ℕ) (sys : Sys) :
    runAll m (a + b) sys = runAll m b (runAll m a sys) := by
  induction a generalizing sys with
  | zero => rw [Nat.zero_add]; rfl
  | succ a ih =>
      have hab : a + 1 + b = (a + b) + 1 := by omega
      rw [hab]
      rcases hp : popNext sys.timers with _ | ⟨t, rest⟩
      · have hnil : sys.timers = [] := popNext_eq_none hp
        rw [runAll_nil m (a + b + 1) hnil, runAll_nil m (a + 1) hnil,
          runAll_nil m b hnil]
      · simp only [runAll, hp]
        exact ih _

lemma clear2_nil {sys : Sys}
    (h : ∀ t ∈ sys.timers,
      sys.autoHideTimeout = some t.id ∨ sys.delayedStartTimeout = some t.id) :
    (clearTO sys.delayedStartTimeout (clearTO sys.autoHideTimeout sys)).timers
      = [] := by
  rcases hA : sys.autoHideTimeout with _ | i <;>
    rcases hD : sys.delayedStartTimeout with _ | j <;>
    rw [hA, hD] at h <;> simp only [clearTO]
  · rw [List.eq_nil_iff_forall_not_mem]
    intro t ht
    rcases h t ht with hc | hc <;> simp at hc
  · rw [List.filter_eq_nil_iff]
    intro t ht
    rcases h t ht with hc | hc
    · simp at hc
    · rw [Option.some.injEq] at hc
      simp [hc]
  · rw [List.filter_eq_nil_iff]
    intro t ht
    rcases h t ht with hc | hc
    · rw [Option.some.injEq] at hc
      simp [hc]
    · simp at hc
  · rw [List.filter_eq_nil_iff]
    intro t ht
    rw [List.mem_filter] at ht
    rcases h t ht.1 with hc | hc
    · rw [Option.some.injEq] at hc
      have := ht.2
      simp [hc] at this
    · rw [Option.some.injEq] at hc
      simp [hc]

lemma chain'_revealWidths (ms : List ℤ) : ∀ w0 : ℤ,
    (revealWidths w0 ms).Chain' (· ≤ ·) := by
  induction ms with
  | nil => intro w0; simp [revealWidths]
  | cons mv ms ih =>
      intro w0
      rw [revealWidths, List.scanl_cons, List.singleton_append,
        List.chain'_cons']
      constructor
      · intro y hy
        rw [head?_scanl] at hy
        simp only [Option.mem_def, Option.some.injEq] at hy
        rw [← hy]
        exact applyWidth_ge w0 mv
      · exact ih (applyWidth w0 mv)

lemma play_cancels_tracked (a s : Option String) (sys : Sys) :
    ∀ t ∈ (play a s sys).timers,
      sys.nextId ≤ t.id ∨
      (sys.autoHideTimeout ≠ some t.id ∧ sys.delayedStartTimeout ≠ some t.id) := by
  intro t ht
  simp only [play, setTO, List.mem_append, List.mem_singleton] at ht
  rcases ht with ht | ht
  · right
    have h2 := clearTO_mem ht
    have h1 := clearTO_mem h2.1
    refine ⟨h1.2, ?_⟩
    have hD := h2.2
    rwa [clearTO_delayed] at hD
  · left
    rw [ht]
    simp only [clearTO_nextId]
    exact le_refl _

lemma stop_cancels_tracked (sys : Sys) :
    ∀ t ∈ (stop sys).timers,
      sys.nextId ≤ t.id ∨
      (sys.autoHideTimeout ≠ some t.id ∧ sys.delayedStartTimeout ≠ some t.id) := by
  intro t ht
  simp only [stop, setTO, List.mem_append, List.mem_singleton] at ht
  rcases ht with (((ht | ht) | ht) | ht) | ht
  · right
    have h2 := clearTO_mem ht
    have h1 := clearTO_mem h2.1
    refine ⟨h1.2, ?_⟩
    have hD := h2.2
    rwa [clearTO_delayed] at hD
  all_goals
    left
    rw [ht]
    simp only [clearTO_nextId]
    omega

/-! ## The claims -/

/-- Claim C1, as stated, is false: a `play` arriving while a previous cycle
has outstanding scheduled actions does not cancel all of them.  In the trace
`play` at t = 0 then `play` at t = 1200, the first cycle's inner 500 ms timer
(`expandStep`, due t = 1500) and 2000 ms timer (`revealStep`, due t = 3000)
are still pending after the second call, and at t = 1500 the stale timer
widens the box to 1000 px even though the second cycle reset the width to 0
and does not itself mutate anything before its delayed start at t = 2200
(the box is still at its off-stage bottom of -200 at t = 1500). -/
theorem C1_not_all_cancelled :
    ((⟨1, 1500, .expandStep⟩ : Timer) ∈ c1Sys.timers) ∧
    ((⟨2, 3000, .revealStep none none⟩ : Timer) ∈ c1Sys.timers) ∧
    (runUntil mzero 50 1499 c1Sys).st.width = 0 ∧
    (runUntil mzero 50 1500 c1Sys).st.width = 1000 ∧
    (runUntil mzero 50 1500 c1Sys).st.lowerBottom = -200 := by
  decide

/-- Claim C1 amended: every call to `play`, `update`, or `stop` cancels the
two delayed actions tracked by the global handles (the delayed-start and
auto-hide timers) before scheduling new ones — every timer still pending
afterwards is either newly scheduled (fresh id) or was never tracked by
either handle.  The untracked ones (inner phase timers, per-character reveal
timers, completion callbacks, exit-step timers) survive, which is what the
counterexample exploits. -/
theorem C1_tracked_timers_cancelled (c : Cmd) (sys : Sys) :
    ∀ t ∈ (execCmd c sys).timers,
      sys.nextId ≤ t.id ∨
      (sys.autoHideTimeout ≠ some t.id ∧ sys.delayedStartTimeout ≠ some t.id) := by
  cases c with
  | playCmd a s => exact play_cancels_tracked a s sys
  | updateCmd a s => exact play_cancels_tracked a s sys
  | stopCmd => exact stop_cancels_tracked sys

/-- Witness for C1 amended at a concrete input: the first exit timer created
by `stop` from the resting state. -/
theorem C1_tracked_timers_cancelled_witness :
    init.nextId ≤ (⟨0, 500, .stopWidth⟩ : Timer).id ∨
    (init.autoHideTimeout ≠ some (⟨0, 500, .stopWidth⟩ : Timer).id ∧
     init.delayedStartTimeout ≠ some (⟨0, 500, .stopWidth⟩ : Timer).id) :=
  C1_tracked_timers_cancelled .stopCmd init ⟨0, 500, .stopWidth⟩ (by decide)

/-- Claim C2, as stated, is false: calling `stop` during Entering (box on
stage at bottom 40, width still 0, t = 1100 in the trace `play` at t = 0
then `stop` at t = 1100) does not leave the overlay at Idle.  `stop` does
not cancel the cycle's untracked 2000 ms reveal timer, so after all timers
have fired the text container's opacity is 1, every span of the field label
is revealed, and the box width has been re-grown to 1000 — visible residual
text rather than the Idle resting state. -/
theorem C2_residual_text :
    (runUntil mzero 50 1100 (play none none init)).st.lowerBottom = 40 ∧
    (runUntil mzero 50 1100 (play none none init)).st.width = 0 ∧
    (runAll mzero 100 c2Sys).timers = [] ∧
    (runAll mzero 100 c2Sys).st.textOpacity = 1 ∧
    (runAll mzero 100 c2Sys).st.width = 1000 ∧
    (runAll mzero 100 c2Sys).st.nowF.spans.map Prod.snd
      = List.replicate 12 true := by
  decide

/-- Claim C2 amended: `stop` hides the text container immediately, and
provided every timer still pending at the call is one of the two tracked
ones (which is exactly the situation in the pre-entrance window; during
Entering, Expanding or Revealing untracked timers are pending, and the
counterexample shows they break the property), the overlay reaches the
resting state after the fixed exit delays — width 0, box off stage at -200,
logo off stage at -350, logo transform reset, text hidden — with no timers
left. -/
theorem C2_stop_reaches_rest (m : Measure) (sys : Sys)
    (h : ∀ t ∈ sys.timers,
      sys.autoHideTimeout = some t.id ∨ sys.delayedStartTimeout = some t.id) :
    (runAll m 10 (stop sys)).st.textOpacity = 0 ∧
    (runAll m 10 (stop sys)).st.width = 0 ∧
    (runAll m 10 (stop sys)).st.lowerBottom = -200 ∧
    (runAll m 10 (stop sys)).st.logoBottom = -350 ∧
    (runAll m 10 (stop sys)).st.logoTransform = "scale(1) rotate(0deg)" ∧
    (runAll m 10 (stop sys)).timers = [] := by
  have hnil : (clearTO (clearTO sys.autoHideTimeout sys).delayedStartTimeout
      (clearTO sys.autoHideTimeout sys)).timers = [] := by
    rw [clearTO_delayed]
    exact clear2_nil h
  have key : runAll m 10 (stop sys) =
      ⟨sys.now + 3500, sys.nextId + 4, [],
        sys.autoHideTimeout, sys.delayedStartTimeout,
        { sys.st with textOpacity := 0, width := 0, lowerBottom := -200, logoBottom := -350, logoTransform := "scale(1) rotate(0deg)" }⟩ := by
    simp only [stop, setTO]
    rw [hnil]
    simp [runAll, popNext, runAct, clearTO_now, clearTO_nextId, clearTO_st,
      clearTO_auto, clearTO_delayed, add_lt_add_iff_left]
  rw [key]
  refine ⟨rfl, rfl, rfl, rfl, rfl, rfl⟩

/-- Witness for C2 amended: `play` at t = 0, `stop` at t = 500, while only
the tracked delayed-start timer is pending. -/
theorem C2_stop_reaches_rest_witness :
    (runAll mzero 10 (stop (runUntil mzero 10 500 (play none none init)))).st.textOpacity = 0 ∧
    (runAll mzero 10 (stop (runUntil mzero 10 500 (play none none init)))).st.width = 0 ∧
    (runAll mzero 10 (stop (runUntil mzero 10 500 (play none none init)))).st.lowerBottom = -200 ∧
    (runAll mzero 10 (stop (runUntil mzero 10 500 (play none none init)))).st.logoBottom = -350 ∧
    (runAll mzero 10 (stop (runUntil mzero 10 500 (play none none init)))).st.logoTransform
      = "scale(1) rotate(0deg)" ∧
    (runAll mzero 10 (stop (runUntil mzero 10 500 (play none none init)))).timers = [] :=
  C2_stop_reaches_rest mzero (runUntil mzero 10 500 (play none none init))
    (by decide)

/-- Claim C3, as stated, is false: `stop` called while the overlay is Idle
is not a no-op on every visual attribute.  Its 1200 ms exit timer sets the
logo's bottom to -80 px — the on-stage height used during Entering — moving
the logo up from its resting -200 px, and its 1800 ms timer then parks the
logo at -350 px, which also differs from the initial resting value. -/
theorem C3_logo_not_at_rest :
    init.st.logoBottom = -200 ∧
    (runAll mzero 2 (stop init)).now = 1200 ∧
    (runAll mzero 2 (stop init)).st.logoBottom = -80 ∧
    c3Final.st.logoBottom = -350 := by
  decide

/-- Claim C3 amended: `stop` from Idle raises no error and, at every point
of its exit sequence, keeps the box width 0 (never negative), the text
hidden and empty, and the box off stage at -200; it is idempotent on the
final quiescent state; but the logo's bottom transiently becomes -80 before
settling at -350, so not every attribute stays at its resting value. -/
theorem C3_stop_idle_noop (k : ℕ) :
    (runAll mzero k (stop init)).st.width = 0 ∧
    (runAll mzero k (stop init)).st.textOpacity = 0 ∧
    (runAll mzero k (stop init)).st.lowerBottom = -200 ∧
    (runAll mzero k (stop init)).st.nowF.spans = [] ∧
    (runAll mzero k (stop init)).st.artistF.spans = [] ∧
    (runAll mzero k (stop init)).st.songF.spans = [] ∧
    (runAll mzero 10 (stop c3Final)).st = c3Final.st := by
  rcases Nat.lt_or_ge k 5 with hk | hk
  · interval_cases k <;> decide
  · have h4 : k = 4 + (k - 4) := by omega
    rw [h4, runAll_add,
      runAll_nil mzero (k - 4)
        (by decide : (runAll mzero 4 (stop init)).timers = [])]
    decide

/-- Claim C4: the width computed from a measured content width equals
`clamp(measured + 400, 1000, 1600)`, hence always lies in [1000, 1600];
in particular a zero measurement (empty string) yields 1000 and a huge
measurement (extremely long string) yields 1600. -/
theorem C4_width_clamped (measured : ℤ) :
    clampWidth measured = clampSpecWidth measured ∧
    1000 ≤ clampWidth measured ∧ clampWidth measured ≤ 1600 ∧
    clampWidth 0 = 1000 ∧ clampWidth 1000000 = 1600 := by
  refine ⟨?_, ?_, ?_, by decide, by decide⟩ <;>
    simp only [clampWidth, clampSpecWidth, max_def, min_def] <;>
    split_ifs <;> omega

/-- Claim C5: within one reveal pass the width never shrinks — the sequence
of widths produced by successive character reveals is a non-decreasing
chain, and, at the level of the event system, firing any per-character
reveal timer never decreases the container width. -/
theorem C5_width_monotone :
    (∀ (w0 : ℤ) (ms : List ℤ), (revealWidths w0 ms).Chain' (· ≤ ·)) ∧
    ∀ (m : Measure) (f : FieldId) (g i : ℕ) (sys : Sys),
      sys.st.width ≤ (runAct m (.charReveal f g i) sys).st.width := by
  constructor
  · intro w0 ms
    exact chain'_revealWidths ms w0
  · intro m f g i sys
    show sys.st.width ≤
      applyWidth (charRevealSt f g i sys.st).width (m (charRevealSt f g i sys.st))
    rw [charRevealSt_width]
    exact applyWidth_ge _ _

/-- Claim C6: the per-character reveal interval equals the base rate (50 ms
at every call site) for strings of length at most 100, and half the base
rate for longer strings. -/
theorem C6_adaptive_interval (len : ℕ) :
    (len ≤ 100 → adjustSpeed 50 len = 50) ∧
    (100 < len → adjustSpeed 50 len = 50 / 2) := by
  constructor <;> intro h <;> simp only [adjustSpeed]
  · rw [if_neg (by omega)]
  · rw [if_pos (by omega)]

/-- Witness for C6 at concrete lengths: 12 characters keep the base rate,
101 characters halve it. -/
theorem C6_adaptive_interval_witness :
    adjustSpeed 50 12 = 50 ∧ adjustSpeed 50 101 = 50 / 2 :=
  ⟨(C6_adaptive_interval 12).1 (by decide),
   (C6_adaptive_interval 101).2 (by decide)⟩

/-- Claim C7: in the timers one `createTypewriter` call schedules, the
character at index `i` becomes visible at `i * speed` from the start of the
field's reveal, the completion callback fires at `len * speed + 500`
(500 ms is the settle delay), these are the only timers, and for the empty
string only the callback remains, still firing after the settle delay. -/
theorem C7_reveal_schedule (t0 id0 : ℕ) (f : FieldId) (g : ℕ)
    (len speed : ℕ) (k : Next) :
    (∀ i, i < len →
      (⟨id0 + i, t0 + i * speed, .charReveal f g i⟩ : Timer)
        ∈ twTimers t0 id0 f g len speed k) ∧
    (⟨id0 + len, t0 + len * speed + 500, .fieldDone k⟩ : Timer)
      ∈ twTimers t0 id0 f g len speed k ∧
    (twTimers t0 id0 f g len speed k).length = len + 1 ∧
    twTimers t0 id0 f g 0 speed k = [⟨id0, t0 + 500, .fieldDone k⟩] := by
  refine ⟨?_, ?_, ?_, ?_⟩
  · intro i hi
    apply List.mem_append_left
    exact List.mem_map.mpr ⟨i, List.mem_range.mpr hi, rfl⟩
  · apply List.mem_append_right
    simp
  · simp [twTimers]
  · simp [twTimers]

/-- Witness for C7 at a concrete schedule: a 5-character reveal started at
t = 7 with ids from 10 and speed 50. -/
theorem C7_reveal_schedule_witness :
    ((⟨12, 107, .charReveal .nowP 1 2⟩ : Timer)
      ∈ twTimers 7 10 .nowP 1 5 50 .done) ∧
    ((⟨15, 757, .fieldDone .done⟩ : Timer)
      ∈ twTimers 7 10 .nowP 1 5 50 .done) := by
  exact ⟨(C7_reveal_schedule 7 10 .nowP 1 5 50 .done).1 2 (by decide),
    (C7_reveal_schedule 7 10 .nowP 1 5 50 .done).2.1⟩

/-- Claim C8: `update(request)` behaves exactly as `play(request)` — its
body is a single call to `play` — and hence always fully restarts the cycle:
right after the call the three text fields are cleared, the text container
hidden, the box width 0 and the box off stage. -/
theorem C8_update_equals_play (a s : Option String) (sys : Sys) :
    update a s sys = play a s sys ∧
    (update a s sys).st.nowF.spans = [] ∧
    (update a s sys).st.artistF.spans = [] ∧
    (update a s sys).st.songF.spans = [] ∧
    (update a s sys).st.textOpacity = 0 ∧
    (update a s sys).st.width = 0 ∧
    (update a s sys).st.lowerBottom = -200 :=
  ⟨rfl, rfl, rfl, rfl, rfl, rfl, rfl⟩

/-- Claim C9: an artist (or song) that is the empty string — falsy, though
present — falls back to the default text exactly as an omitted field does,
because `||` tests truthiness; a non-empty string is kept.  At the system
level, completing the label reveal with `artist = some ""` types
"Artist Name" into the artist field, and likewise for the song field. -/
theorem C9_empty_string_default (d t : String) (so : Option String)
    (m : Measure) (sys : Sys) :
    orDefault none d = d ∧
    orDefault (some "") d = d ∧
    (t ≠ "" → orDefault (some t) d = t) ∧
    ((runAct m (.fieldDone (.toArtist (some "") so)) sys).st.artistF.spans.map
      Prod.fst = "Artist Name".toList) ∧
    ((runAct m (.fieldDone (.toSong (some ""))) sys).st.songF.spans.map
      Prod.fst = "Song Title".toList) := by
  refine ⟨rfl, by simp [orDefault], fun h => by simp [orDefault, h], ?_, ?_⟩
  · simp [runAct, createTypewriter, orDefault, setF, List.map_map]
  · simp [runAct, createTypewriter, orDefault, setF, List.map_map]

/-- Witness for C9: concrete strings, with the non-emptiness hypothesis
discharged at "Metallica". -/
theorem C9_empty_string_default_witness :
    orDefault none "Artist Name" = "Artist Name" ∧
    orDefault (some "") "Artist Name" = "Artist Name" ∧
    orDefault (some "Metallica") "Artist Name" = "Metallica" :=
  ⟨(C9_empty_string_default "Artist Name" "Metallica" none mzero init).1,
   (C9_empty_string_default "Artist Name" "Metallica" none mzero init).2.1,
   (C9_empty_string_default "Artist Name" "Metallica" none mzero init).2.2.1
     (by decide)⟩

/-- Claim C10: `stop` never modifies the content of the three text fields —
its immediate effect changes only the text container's opacity, and each of
its four scheduled actions changes only the width, the logo transform, or a
bottom position, leaving every span list untouched — while `play` (and so
`update`) is what clears the three fields. -/
theorem C10_stop_preserves_text (m : Measure) (a s : Option String)
    (sys : Sys) :
    (stop sys).st = { sys.st with textOpacity := 0 } ∧
    (runAct m .stopWidth sys).st
      = { sys.st with width := 0, logoTransform := "scale(1) rotate(0deg)" } ∧
    (runAct m .stopLogoHome sys).st = { sys.st with logoBottom := -80 } ∧
    (runAct m .stopLowerOff sys).st = { sys.st with lowerBottom := -200 } ∧
    (runAct m .stopLogoOff sys).st = { sys.st with logoBottom := -350 } ∧
    (play a s sys).st.nowF.spans = [] ∧
    (play a s sys).st.artistF.spans = [] ∧
    (play a s sys).st.songF.spans = [] := by
  refine ⟨?_, rfl, rfl, rfl, rfl, rfl, rfl, rfl⟩
  simp only [stop, setTO]
  rw [clearTO_st, clearTO_st]

end NowPlaying
